import Mathlib

/-!
Verification of the voice-diary-bot conversion and transcription pipeline.

A shallow embedding, in Lean 4, of the parts of the `voice-diary-bot`
repository that its design document makes claims about:

* `src/storage.py` — path derivation, size validation and guarded cleanup
  (`StorageManager`);
* `src/ffmpeg_runner.py` — encoder command construction, timeout-bounded
  process supervision and output validation (`FFmpegRunner`);
* `src/transcription.py` — the Whisper response handling, the deterministic
  daily-note template and the append-only markdown writer
  (`TranscriptionHandler`);
* `src/bot.py` — the per-attachment coordinator (`VoiceDiaryBot`).

The filesystem is modelled as an association list from paths (lists of
components) to file sizes; wall-clock time in the process supervisor is
modelled in tenths of a second; network and subprocess outcomes are
parameters of the embedded control flow.
-/

namespace VoiceDiary

/-! ## Generic string helpers -/

/-- Decides: `occursIn pat l` tells whether `pat` occurs as a contiguous run
inside `l`. -/
def occursIn (pat : List Char) : List Char → Bool
  | [] => pat.isEmpty
  | c :: l => pat.isPrefixOf (c :: l) || occursIn pat l

/-- Substring test on strings, via the underlying character lists. -/
def strContains (s pat : String) : Bool :=
  occursIn pat.data s.data

/-- Test of `str.startswith`, via the underlying character lists. -/
def strStartsWith (s pre : String) : Bool :=
  pre.data.isPrefixOf s.data

/-! ## Python `pathlib` filename helpers

`PurePath.name`, `PurePath.suffix` and `PurePath.stem`, restricted to the
POSIX flavour, exactly as CPython computes them: `suffix`/`stem` split the
final component `name` at the last dot, provided that dot is neither the
first nor the last character of `name`. -/

/-- Index of the last `'.'` in a character list, if any. -/
def lastDotIdx : List Char → Option Nat
  | [] => none
  | c :: cs =>
    match lastDotIdx cs with
    | some i => some (i + 1)
    | none => if c = '.' then some 0 else none

/-- Splits a character list at every `'/'`. -/
def splitSlash : List Char → List (List Char)
  | [] => [[]]
  | c :: cs =>
    let r := splitSlash cs
    if c = '/' then [] :: r
    else
      match r with
      | [] => [[c]]
      | h :: t => (c :: h) :: t

/-- Model of `PurePosixPath(s).name`: the final nonempty path component. -/
def pyName (s : String) : String :=
  String.mk (((splitSlash s.data).filter (· ≠ [])).getLastD [])

/-- Model of `PurePosixPath(s).suffix`: the extension of the final component,
including the leading dot, or `""`. -/
def pySuffix (s : String) : String :=
  let name := pyName s
  let cs := name.data
  match lastDotIdx cs with
  | none => ""
  | some i => if 0 < i ∧ i < cs.length - 1 then String.mk (cs.drop i) else ""

/-- Model of `PurePosixPath(s).stem`: the final component without its suffix. -/
def pyStem (s : String) : String :=
  let name := pyName s
  let cs := name.data
  match lastDotIdx cs with
  | none => name
  | some i => if 0 < i ∧ i < cs.length - 1 then String.mk (cs.take i) else name

/-- ASCII lower-casing of a string (`str.lower()` on the alphabets used by
the file-extension checks). -/
def strLower (s : String) : String :=
  String.mk (s.data.map Char.toLower)

/-! ## Data model: paths, filesystem, settings -/

/-- A filesystem path, modelled as its list of components. -/
abbrev FsPath := List String

/-- The filesystem: an association list from paths to file sizes in bytes.
A path is a regular file iff it has an entry. -/
abbrev Fs := List (FsPath × Nat)

/-- Size of the file at `p`, if it exists. -/
def Fs.sizeOf? (fs : Fs) (p : FsPath) : Option Nat :=
  match fs.find? (fun e => e.1 = p) with
  | some e => some e.2
  | none => none

/-- Create or overwrite the file at `p` with `sz` bytes. -/
def Fs.setFile (fs : Fs) (p : FsPath) (sz : Nat) : Fs :=
  (p, sz) :: fs.filter (fun e => ¬ e.1 = p)

/-- Model of `Path.unlink()`: remove the entry at `p`. -/
def Fs.unlink (fs : Fs) (p : FsPath) : Fs :=
  fs.filter (fun e => ¬ e.1 = p)

/-- Model of `path.exists()` for our file model. -/
def Fs.existsFile (fs : Fs) (p : FsPath) : Bool :=
  (fs.sizeOf? p).isSome

/-- The configuration snapshot (`src/settings.py`, `Settings`), restricted
to the fields the embedded components read. -/
structure Settings where
  work_dir : FsPath
  delete_on_success : Bool
  audio_bitrate : Nat
  max_file_size : Nat
  processing_timeout : Nat
  background_image : String

/-! ## Storage manager (`src/storage.py`) -/

/-- Model of `StorageManager`: owns the staging-area layout derived from the
settings. -/
structure StorageManager where
  settings : Settings

/-- Model of `self.inbox_dir = self.work_dir / "inbox"`. -/
def StorageManager.inbox_dir (m : StorageManager) : FsPath :=
  m.settings.work_dir ++ ["inbox"]

/-- Model of `self.output_dir = self.work_dir / "out"`. -/
def StorageManager.output_dir (m : StorageManager) : FsPath :=
  m.settings.work_dir ++ ["out"]

/-- Model of `StorageManager.get_inbox_path`: `self.inbox_dir / filename`. -/
def StorageManager.get_inbox_path (m : StorageManager) (filename : String) : FsPath :=
  m.inbox_dir ++ [filename]

/-- Model of `StorageManager.get_output_path`: `self.output_dir / f"{Path(input_filename).stem}.mp4"`. -/
def StorageManager.get_output_path (m : StorageManager) (input_filename : String) : FsPath :=
  m.output_dir ++ [pyStem input_filename ++ ".mp4"]

/-- Model of `StorageManager.cleanup_inbox_file`: unlink only when the file exists
and its parent is exactly the inbox directory. -/
def StorageManager.cleanup_inbox_file (m : StorageManager) (fs : Fs) (file_path : FsPath) : Fs :=
  if fs.existsFile file_path ∧ file_path.dropLast = m.inbox_dir then
    fs.unlink file_path
  else
    fs

/-- Model of `StorageManager.cleanup_output_file`: unlink only when deletion is
enabled, the file exists, and its parent is exactly the output directory. -/
def StorageManager.cleanup_output_file (m : StorageManager) (fs : Fs) (file_path : FsPath) : Fs :=
  if m.settings.delete_on_success ∧ fs.existsFile file_path ∧ file_path.dropLast = m.output_dir then
    fs.unlink file_path
  else
    fs

/-- Model of `StorageManager.get_file_size`: `None` if the file is missing. -/
def StorageManager.get_file_size (fs : Fs) (file_path : FsPath) : Option Nat :=
  fs.sizeOf? file_path

/-- Model of `StorageManager.validate_file_size`: the file exists and its size is
within the configured limit. -/
def StorageManager.validate_file_size (m : StorageManager) (fs : Fs) (file_path : FsPath) : Bool :=
  match StorageManager.get_file_size fs file_path with
  | none => false
  | some sz => sz ≤ m.settings.max_file_size

/-! ## FFmpeg runner (`src/ffmpeg_runner.py`) -/

/-- The `FFmpegError` exception: message plus optional return code and
captured stderr. -/
structure FFmpegError where
  message : String
  return_code : Option Int
  stderr : Option String
deriving DecidableEq, Repr

/-- Model of `FFmpegRunner`: configuration read in `__init__`. -/
structure FFmpegRunner where
  timeout : Nat
  audio_bitrate : Nat
  background_image : String

/-- Model of `FFmpegRunner._can_copy_audio`: the input's lower-cased extension is an
AAC-compatible container (`.aac` or `.m4a`). -/
def can_copy_audio (input_audio : String) : Bool :=
  [".aac", ".m4a"].contains (strLower (pySuffix input_audio))

/-- Model of `FFmpegRunner.build_command`: the argument vector for the conversion,
with the audio codec chosen by `_can_copy_audio` and the bitrate flag added
only in the re-encode branch. -/
def build_command (r : FFmpegRunner) (input_audio output_video : String) : List String :=
  let go : Bool := can_copy_audio input_audio
  let command := ["ffmpeg", "-y", "-loop", "1", "-i", r.background_image,
    "-i", input_audio, "-c:v", "libx264", "-preset", "veryfast",
    "-profile:v", "baseline", "-tune", "stillimage", "-pix_fmt", "yuv420p",
    "-c:a", if go then "copy" else "aac"]
  let command := if go then command else command ++ ["-b:a", toString r.audio_bitrate ++ "k"]
  command ++ ["-ac", "1", "-shortest", "-movflags", "+faststart",
    "-max_muxing_queue_size", "1024", output_video]

/-- Formatting of a duration held in tenths of a second, as Python's
`f"{elapsed:.1f}"` renders it for such values. -/
def fmtTenths (t : Nat) : String :=
  toString (t / 10) ++ "." ++ toString (t % 10)

/-- Message of the `asyncio.TimeoutError` raised by
`_monitor_process_with_timeout` when the overall deadline is exceeded. -/
def monitorTimeoutMsg (elapsedTenths : Nat) : String :=
  "FFmpeg conversion timed out after " ++ fmtTenths elapsedTenths ++ " seconds"

/-- The `asyncio.TimeoutError` escaping the monitor: it carries the elapsed
wall-clock duration at the moment the deadline was found exceeded. -/
structure PyTimeoutError where
  elapsedTenths : Nat
  message : String
deriving DecidableEq, Repr

/-- Whether the child process has exited by time `t` (tenths of a second
after launch); `finishAt = none` means it never exits on its own. -/
def finishedBy (finishAt : Option Nat) (t : Nat) : Bool :=
  match finishAt with
  | some f => f ≤ t
  | none => false

/-- Model of `FFmpegRunner._monitor_process_with_timeout`, with wall-clock time in
tenths of a second. Each iteration waits
`min(check_interval, timeout - elapsed)` (300 tenths = the 30 s check
interval); if the child completes within the wait the monitor returns its
completion time; otherwise, once the total deadline is reached, it raises a
timeout error carrying the elapsed duration; below the deadline it sleeps
one second (10 tenths) and loops. -/
def monitorLoop (T : Nat) (finishAt : Option Nat) (e : Nat) : Except PyTimeoutError Nat :=
  if finishedBy finishAt e then
    .ok ((finishAt).getD 0)
  else
    let w := min 300 (T - e)
    if finishedBy finishAt (e + w) then
      .ok ((finishAt).getD 0)
    else if T ≤ e + w then
      .error ⟨e + w, monitorTimeoutMsg (e + w)⟩
    else
      monitorLoop T finishAt (e + w + 10)
termination_by T - e
decreasing_by
  simp only [not_le] at *
  omega

/-- The view `convert_audio_to_video` has of the child at a given time:
`returncode` is `none` while the child is still running. -/
def procReturncodeAt (finishAt : Option Nat) (exitCode : Int) (t : Nat) : Option Int :=
  match finishAt with
  | some f => if f ≤ t then some exitCode else none
  | none => none

/-- Model of `process.kill()` followed by `await process.wait()`: afterwards the
child has exited (with the kill signal's code if it was still running). -/
def killAndWait (returncode : Option Int) : Option Int :=
  match returncode with
  | some c => some c
  | none => some (-9)

/-- The success-validation tail of `convert_audio_to_video` (after the
monitor returned): nonzero exit code, missing output file, and empty output
file are each failures; otherwise the conversion succeeded. -/
def convertOutputCheck (returncode : Int) (stderrText : String) (outSize : Option Nat) :
    Except FFmpegError Unit :=
  if returncode ≠ 0 then
    .error ⟨"FFmpeg failed with return code " ++ toString returncode,
      some returncode, some stderrText⟩
  else
    match outSize with
    | none => .error ⟨"FFmpeg completed but output file was not created", none, none⟩
    | some sz =>
      if sz = 0 then .error ⟨"FFmpeg created empty output file", none, none⟩
      else .ok ()

/-- Message of the `FFmpegError` raised on the timeout path of
`convert_audio_to_video` (it interpolates the configured timeout). -/
def convertTimeoutMsg (timeoutSec : Nat) : String :=
  "FFmpeg conversion timed out after " ++ toString timeoutSec ++ " seconds"

/-- Outcome of one `convert_audio_to_video` run: the returned or raised
result, the child's `returncode` after the call (`none` = still running),
and the message of the chained timeout cause, if any. -/
structure ConvertRun where
  result : Except FFmpegError Unit
  procAfter : Option Int
  causeMsg : Option String
deriving Repr

/-- Model of `FFmpegRunner.convert_audio_to_video` from process launch onward: run
the monitor; on normal completion validate the exit code and the output
file; on a timeout kill and reap the child if it is still running and raise
an `FFmpegError` chained to the monitor's timeout error. -/
def convert_audio_to_video (r : FFmpegRunner) (finishAt : Option Nat) (exitCode : Int)
    (stderrText : String) (outSize : Option Nat) : ConvertRun :=
  match monitorLoop (r.timeout * 10) finishAt 0 with
  | .ok _ =>
    { result := convertOutputCheck exitCode stderrText outSize
      procAfter := some exitCode
      causeMsg := none }
  | .error te =>
    let rc := procReturncodeAt finishAt exitCode te.elapsedTenths
    let rc := if rc.isNone then killAndWait rc else rc
    { result := .error ⟨convertTimeoutMsg r.timeout, none, none⟩
      procAfter := rc
      causeMsg := some te.message }

/-! ## Calendar arithmetic (Python `datetime.date`)

The proleptic Gregorian calendar as CPython's `datetime` module implements
it: ordinal 1 is 0001-01-01, `isoweekday` maps Monday to 1, and
`isocalendar` follows the ISO 8601 week-numbering rules. -/

/-- A calendar date. -/
structure Date where
  year : Nat
  month : Nat
  day : Nat
deriving DecidableEq, Repr

/-- Gregorian leap-year rule. -/
def isLeapYear (y : Nat) : Bool :=
  y % 4 = 0 && (y % 100 ≠ 0 || y % 400 = 0)

/-- Length of month `m` of year `y`. -/
def daysInMonth (y m : Nat) : Nat :=
  if m = 2 then (if isLeapYear y then 29 else 28)
  else if m = 4 ∨ m = 6 ∨ m = 9 ∨ m = 11 then 30
  else 31

/-- Days in year `y` before the first of month `m`. -/
def daysBeforeMonth (y m : Nat) : Nat :=
  (List.range (m - 1)).foldl (fun acc k => acc + daysInMonth y (k + 1)) 0

/-- Days before January 1st of year `y` (year 1 gives 0). -/
def daysBeforeYear (y : Nat) : Nat :=
  (y - 1) * 365 + (y - 1) / 4 - (y - 1) / 100 + (y - 1) / 400

/-- Model of `date.toordinal()`: days since 0001-01-01, that day being 1. -/
def toOrdinal (d : Date) : Nat :=
  daysBeforeYear d.year + daysBeforeMonth d.year d.month + d.day

/-- Locate the month containing 1-based day-of-year `doy` of year `y`. -/
def monthFromDoy (y : Nat) : Nat → Nat → Nat → Date
  | 0, m, doy => ⟨y, m, doy⟩
  | fuel + 1, m, doy =>
    if doy ≤ daysInMonth y m then ⟨y, m, doy⟩
    else monthFromDoy y fuel (m + 1) (doy - daysInMonth y m)

/-- Model of `date.fromordinal(n)`: inverse of `toOrdinal`, following CPython's
`_ord2ymd` (400/100/4/1-year decomposition, with the two end-of-cycle
corrections landing on December 31st). -/
def ofOrdinal (n : Nat) : Date :=
  let n0 := n - 1
  let n400 := n0 / 146097
  let r1 := n0 % 146097
  let n100 := r1 / 36524
  let r2 := r1 % 36524
  let n4 := r2 / 1461
  let r3 := r2 % 1461
  let n1 := r3 / 365
  let r4 := r3 % 365
  let year := n400 * 400 + n100 * 100 + n4 * 4 + n1 + 1
  if n1 = 4 ∨ n100 = 4 then ⟨year - 1, 12, 31⟩
  else monthFromDoy year 11 1 (r4 + 1)

/-- Model of `date + timedelta(days=k)` (also negative `k`); the result of shifting
by `k` days. -/
def addDays (d : Date) (k : Int) : Date :=
  ofOrdinal ((toOrdinal d : Int) + k).toNat

/-- Model of `date.isoweekday()`: Monday = 1 … Sunday = 7. -/
def isoweekday (d : Date) : Nat :=
  let r := toOrdinal d % 7
  if r = 0 then 7 else r

/-- Ordinal of the Monday starting ISO week 1 of `year` (CPython's
`_isoweek1monday`). -/
def isoweek1monday (year : Nat) : Int :=
  let firstday : Int := (toOrdinal ⟨year, 1, 1⟩ : Int)
  let firstweekday := (firstday + 6) % 7
  let week1monday := firstday - firstweekday
  if firstweekday > 3 then week1monday + 7 else week1monday

/-- Model of `date.isocalendar()` restricted to (ISO year, ISO week number). -/
def isocalendar (d : Date) : Int × Nat :=
  let today : Int := (toOrdinal d : Int)
  let year : Int := (d.year : Int)
  let week := Int.fdiv (today - isoweek1monday d.year) 7
  if week < 0 then
    let year := year - 1
    let week := Int.fdiv (today - isoweek1monday (d.year - 1)) 7
    (year, week.toNat + 1)
  else if week ≥ 52 ∧ today ≥ isoweek1monday (d.year + 1) then
    (year + 1, 1)
  else
    (year, week.toNat + 1)

/-! ## Daily-note template (`TranscriptionHandler._generate_daily_template`) -/

/-- Two-digit zero-padded decimal (`%02d`, `%m`, `%d`, `%H` …). -/
def pad2 (n : Nat) : String :=
  if n < 10 then "0" ++ toString n else toString n

/-- Model of `date.strftime('%Y-%m')`. -/
def fmtYm (d : Date) : String :=
  toString d.year ++ "-" ++ pad2 d.month

/-- Model of `date.strftime('%Y-%m-%d')`. -/
def fmtYmd (d : Date) : String :=
  toString d.year ++ "-" ++ pad2 d.month ++ "-" ++ pad2 d.day

/-- The front-matter block of a new daily note. -/
def frontMatterBlock : String :=
  "---\ntags:\n  - 日記\n---\n\n"

/-- The breadcrumb line `[[year]] / [[year-Qq|Qq]] / [[YYYY-MM|M月]]` with
`q = (month - 1) // 3 + 1`. -/
def breadcrumbLine (d : Date) : String :=
  let year := d.year
  let quarter := (d.month - 1) / 3 + 1
  "[[" ++ toString year ++ "]] / [[" ++ toString year ++ "-Q" ++ toString quarter ++
    "|Q" ++ toString quarter ++ "]] / [[" ++ fmtYm d ++ "|" ++ toString d.month ++ "月]]"

/-- Model of `week_link(year, week)` from the template generator. -/
def weekLink (year : Int) (week : Nat) : String :=
  "[[" ++ toString year ++ "-W" ++ pad2 week ++ "|Week " ++ toString week ++ "]]"

/-- The ISO week-navigation line (previous, current, next week). -/
def weekNavLine (d : Date) : String :=
  let iso := isocalendar d
  let prev := isocalendar (addDays d (-7))
  let next := isocalendar (addDays d 7)
  "❮ " ++ weekLink prev.1 prev.2 ++ " | Week " ++ toString iso.2 ++ " | " ++
    weekLink next.1 next.2 ++ " ❯"

/-- One `[[YYYY-MM-DD|DD]]` day link. -/
def dayLink (d : Date) : String :=
  "[[" ++ fmtYmd d ++ "|" ++ pad2 d.day ++ "]]"

/-- The seven Monday-start day links of the week containing `d`. -/
def weekDaysLine (d : Date) : String :=
  let start := addDays d (-(isoweekday d - 1 : Nat))
  String.intercalate " - " ((List.range 7).map (fun i => dayLink (addDays start i)))

/-- Model of `TranscriptionHandler._generate_daily_template`: front matter,
breadcrumb, week navigation and week-day links, joined with the same
separators as the source. -/
def generate_daily_template (d : Date) : String :=
  frontMatterBlock ++ breadcrumbLine d ++ "\n" ++ weekNavLine d ++ "\n" ++
    weekDaysLine d ++ "\n\n"

/-! ## Transcription writer (`src/transcription.py`) -/

/-- A time of day, for the `%H:%M:%S` entry heading. -/
structure TimeOfDay where
  hour : Nat
  minute : Nat
  second : Nat
deriving DecidableEq, Repr

/-- Model of `now.strftime("%H:%M:%S")`. -/
def fmtHms (t : TimeOfDay) : String :=
  pad2 t.hour ++ ":" ++ pad2 t.minute ++ ":" ++ pad2 t.second

/-- The entry appended per transcript:
`f"\n## {timestamp} - {filename}\n\n{transcript}\n"`. -/
def transcriptEntry (t : TimeOfDay) (filename transcript : String) : String :=
  "\n## " ++ fmtHms t ++ " - " ++ filename ++ "\n\n" ++ transcript ++ "\n"

/-- Model of `now.strftime("%Y-%m-%d.md")`: the daily-note filename. -/
def dailyNoteName (d : Date) : String :=
  fmtYmd d ++ ".md"

/-- Model of `TranscriptionHandler.save_to_markdown`, acting on the content of the
date's note (`none` = the file does not exist yet): new files get the
template header first; the entry is then appended in both cases. -/
def save_to_markdown (d : Date) (t : TimeOfDay) (filename transcript : String)
    (content : Option String) : String :=
  let entry := transcriptEntry t filename transcript
  match content with
  | none => generate_daily_template d ++ entry
  | some c => c ++ entry

/-- A sequence of successful `save_to_markdown` calls on the same date,
applied to the note's content in call order. -/
def runSaves (d : Date) (calls : List (TimeOfDay × String × String)) (content : Option String) :
    Option String :=
  match calls with
  | [] => content
  | (t, fn, tr) :: rest =>
    runSaves d rest (some (save_to_markdown d t fn tr content))

/-- The response situations `transcribe_audio` distinguishes: a transport
error from the HTTP client, a JSON body without a `text` field, a `text`
field that is not a string, or a proper transcript. -/
inductive WhisperResp where
  | clientError (msg : String)
  | missingText
  | nonStringText
  | textField (s : String)
deriving DecidableEq, Repr

/-- The errors `transcribe_audio` can raise: re-raised transport errors and
`ValueError`s for protocol mismatches. -/
inductive TranscriptionError where
  | client (msg : String)
  | valueError (msg : String)
deriving DecidableEq, Repr

/-- Model of `TranscriptionHandler.transcribe_audio`, as a function of the Whisper
API response: transport errors propagate, a missing or non-string `text`
field raises `ValueError`, otherwise the transcript is returned. -/
def transcribe_audio (resp : WhisperResp) : Except TranscriptionError String :=
  match resp with
  | .clientError m => .error (.client m)
  | .missingText => .error (.valueError "Invalid Whisper API response")
  | .nonStringText => .error (.valueError "Expected text to be str")
  | .textField s => .ok s

/-- Model of `TranscriptionHandler.process_transcription`: transcribe, then save.
Returns the raised error or the note path, together with the note content
after the call (unchanged when transcription failed, since
`save_to_markdown` is only reached after `transcribe_audio` returned). -/
def process_transcription (resp : WhisperResp) (d : Date) (t : TimeOfDay)
    (original_filename : String) (content : Option String) :
    Except TranscriptionError String × Option String :=
  match transcribe_audio resp with
  | .error e => (.error e, content)
  | .ok transcript =>
    (.ok (dailyNoteName d), some (save_to_markdown d t original_filename transcript content))

/-! ## Per-attachment coordinator (`src/bot.py`) -/

/-- A Discord attachment as the bot reads it. -/
structure Attachment where
  filename : String
  content_type : String
  size : Nat
deriving DecidableEq, Repr

/-- Model of `VoiceDiaryBot._get_audio_attachments`: keep attachments whose declared
content type starts with `audio/` and whose declared size is within the
limit. -/
def get_audio_attachments (s : Settings) (atts : List Attachment) : List Attachment :=
  atts.filter (fun a => strStartsWith a.content_type "audio/" && a.size ≤ s.max_file_size)

/-- The size re-validation at the end of `VoiceDiaryBot._download_attachment`:
after the bytes are on disk, `validate_file_size` is consulted and a
`ValueError` is raised unless the written file exists within the limit. -/
def download_size_check (m : StorageManager) (fs : Fs) (output_path : FsPath) :
    Except String Unit :=
  if m.validate_file_size fs output_path then .ok ()
  else .error "Downloaded file exceeds size limit"

/-- How the download of an attachment can end: fully staged; a transport
error (with or without a partial file already written); or staged but
rejected by the post-download size check (`ValueError`). -/
inductive DlOutcome where
  | ok (size : Nat)
  | clientError (partialWritten : Bool)
  | sizeTooLarge (size : Nat)
deriving DecidableEq, Repr

/-- How the FFmpeg conversion step can end in video mode. -/
inductive CvOutcome where
  | ok (outSize : Nat)
  | ffmpegError
  | unexpectedError
deriving DecidableEq, Repr

/-- How the transcription step can end in transcription mode: success, a
transport (`aiohttp.ClientError`) failure, or an invalid-response
(`ValueError`) failure. -/
inductive TrOutcome where
  | ok
  | clientError
  | invalidResponse
deriving DecidableEq, Repr

/-- Observable outward effects of one attachment's processing, in order. -/
inductive Ev where
  | replySent (msg : String)
  | editSent (msg : String)
  | errorSent (msg : String)
  | inboxCleanupCalled
  | outputCleanupCalled
deriving DecidableEq, Repr

/-- Model of `VoiceDiaryBot._process_video_mode`: the try/except control flow over
the staged filesystem, with the download and conversion outcomes as
parameters. A transport error during download is answered with a network
error and nothing else; an `FFmpegError` or any other exception is answered
with an error reply followed by inbox cleanup; on success the reply is
edited, the inbox copy removed and the output optionally removed. -/
def process_video_mode (m : StorageManager) (fs : Fs) (filename : String)
    (dl : DlOutcome) (cv : CvOutcome) : Fs × List Ev :=
  let inbox_path := m.get_inbox_path filename
  let output_path := m.get_output_path filename
  let evs := [Ev.replySent ("Processing audio file: " ++ filename)]
  match dl with
  | .clientError partialWritten =>
    let fs := if partialWritten then fs.setFile inbox_path 0 else fs
    (fs, evs ++ [Ev.errorSent ("Failed to download " ++ filename ++ ": Network error")])
  | .sizeTooLarge sz =>
    let fs := fs.setFile inbox_path sz
    let fs := m.cleanup_inbox_file fs inbox_path
    (fs, evs ++ [Ev.errorSent ("Unexpected error processing " ++ filename),
      Ev.inboxCleanupCalled])
  | .ok sz =>
    let fs := fs.setFile inbox_path sz
    match cv with
    | .ffmpegError =>
      (m.cleanup_inbox_file fs inbox_path,
        evs ++ [Ev.errorSent ("Failed to convert " ++ filename ++ ": Video processing error"),
          Ev.inboxCleanupCalled])
    | .unexpectedError =>
      (m.cleanup_inbox_file fs inbox_path,
        evs ++ [Ev.errorSent ("Unexpected error processing " ++ filename),
          Ev.inboxCleanupCalled])
    | .ok outSize =>
      let fs := fs.setFile output_path outSize
      let fs := m.cleanup_inbox_file fs inbox_path
      if m.settings.delete_on_success then
        (m.cleanup_output_file fs output_path,
          evs ++ [Ev.editSent "Successfully converted", Ev.inboxCleanupCalled,
            Ev.outputCleanupCalled])
      else
        (fs, evs ++ [Ev.editSent "Successfully converted", Ev.inboxCleanupCalled])

/-- Model of `VoiceDiaryBot._process_transcription_mode`: like video mode, but with
the transcription step; `aiohttp.ClientError` — whether from the download
or from the Whisper call — is answered with the network-error reply and no
cleanup, while any other exception gets the error reply followed by inbox
cleanup. -/
def process_transcription_mode (m : StorageManager) (fs : Fs) (filename : String)
    (dl : DlOutcome) (tr : TrOutcome) : Fs × List Ev :=
  let inbox_path := m.get_inbox_path filename
  let evs := [Ev.replySent ("Transcribing audio: " ++ filename)]
  match dl with
  | .clientError partialWritten =>
    let fs := if partialWritten then fs.setFile inbox_path 0 else fs
    (fs, evs ++ [Ev.errorSent ("Failed to download " ++ filename ++ ": Network error")])
  | .sizeTooLarge sz =>
    let fs := fs.setFile inbox_path sz
    let fs := m.cleanup_inbox_file fs inbox_path
    (fs, evs ++ [Ev.errorSent ("Unexpected error transcribing " ++ filename),
      Ev.inboxCleanupCalled])
  | .ok sz =>
    let fs := fs.setFile inbox_path sz
    match tr with
    | .clientError =>
      (fs, evs ++ [Ev.errorSent ("Failed to download " ++ filename ++ ": Network error")])
    | .invalidResponse =>
      (m.cleanup_inbox_file fs inbox_path,
        evs ++ [Ev.errorSent ("Unexpected error transcribing " ++ filename),
          Ev.inboxCleanupCalled])
    | .ok =>
      (m.cleanup_inbox_file fs inbox_path,
        evs ++ [Ev.editSent "Transcription complete", Ev.inboxCleanupCalled])

/-! ## Helper lemmas about the filesystem model -/

theorem Fs.sizeOf?_unlink (fs : Fs) (p : FsPath) : (fs.unlink p).sizeOf? p = none := by
  induction fs with
  | nil => rfl
  | cons e fs ih =>
    simp only [Fs.unlink, Fs.sizeOf?, List.filter] at *
    by_cases h : e.1 = p
    · simpa [h] using ih
    · simpa [List.find?, h] using ih

theorem Fs.sizeOf?_setFile (fs : Fs) (p : FsPath) (sz : Nat) :
    (fs.setFile p sz).sizeOf? p = some sz := by
  simp [Fs.setFile, Fs.sizeOf?, List.find?]

theorem Fs.existsFile_setFile (fs : Fs) (p : FsPath) (sz : Nat) :
    (fs.setFile p sz).existsFile p = true := by
  simp [Fs.existsFile, Fs.sizeOf?_setFile]

theorem dropLast_concat_dir (dir : FsPath) (fn : String) :
    (dir ++ [fn]).dropLast = dir := by
  simp

theorem cleanup_inbox_removes (m : StorageManager) (fs : Fs) (fn : String) (sz : Nat) :
    (m.cleanup_inbox_file (fs.setFile (m.get_inbox_path fn) sz)
      (m.get_inbox_path fn)).existsFile (m.get_inbox_path fn) = false := by
  unfold StorageManager.cleanup_inbox_file
  rw [if_pos]
  · simp [Fs.existsFile, Fs.sizeOf?_unlink]
  · exact ⟨Fs.existsFile_setFile .., dropLast_concat_dir ..⟩

/-! ## Claims -/

/-- C7: for every path whose parent directory is not exactly the managed
inbox root (respectively output root), `cleanup_inbox_file` (respectively
`cleanup_output_file`) deletes nothing — the filesystem is unchanged, so an
existing file at such a path still exists after the call; and calling
either cleanup on a nonexistent path is a no-op (the guarded model is total
and returns the filesystem unchanged), not an error. -/
theorem c7_cleanup_outside_and_missing_is_noop (m : StorageManager) (fs : Fs) (p : FsPath) :
    (p.dropLast ≠ m.inbox_dir → m.cleanup_inbox_file fs p = fs) ∧
    (p.dropLast ≠ m.output_dir → m.cleanup_output_file fs p = fs) ∧
    (p.dropLast ≠ m.inbox_dir → fs.existsFile p = true →
      (m.cleanup_inbox_file fs p).existsFile p = true) ∧
    (p.dropLast ≠ m.output_dir → fs.existsFile p = true →
      (m.cleanup_output_file fs p).existsFile p = true) ∧
    (fs.existsFile p = false →
      m.cleanup_inbox_file fs p = fs ∧ m.cleanup_output_file fs p = fs) := by
  refine ⟨fun h => ?_, fun h => ?_, fun h he => ?_, fun h he => ?_, fun h => ⟨?_, ?_⟩⟩
  · unfold StorageManager.cleanup_inbox_file
    rw [if_neg]; exact fun hc => h hc.2
  · unfold StorageManager.cleanup_output_file
    rw [if_neg]; exact fun hc => h hc.2.2
  · unfold StorageManager.cleanup_inbox_file
    rw [if_neg] <;> first
      | exact fun hc => h hc.2
      | exact he
  · unfold StorageManager.cleanup_output_file
    rw [if_neg] <;> first
      | exact fun hc => h hc.2.2
      | exact he
  · unfold StorageManager.cleanup_inbox_file
    rw [if_neg]; exact fun hc => by simp [hc.1] at h
  · unfold StorageManager.cleanup_output_file
    rw [if_neg]; exact fun hc => by simp [hc.2.1] at h

/-- Witness for C7 at a concrete manager, filesystem and outside path. -/
theorem c7_witness :
    (let m : StorageManager := ⟨⟨["work"], true, 96, 100, 300, "bg.jpg"⟩⟩
     let fs : Fs := [(["etc", "passwd"], 5)]
     let p : FsPath := ["etc", "passwd"]
     m.cleanup_inbox_file fs p = fs ∧ m.cleanup_output_file fs p = fs ∧
       (m.cleanup_inbox_file fs p).existsFile p = true) := by
  refine ⟨(c7_cleanup_outside_and_missing_is_noop _ _ _).1 (by decide),
    (c7_cleanup_outside_and_missing_is_noop _ _ _).2.1 (by decide),
    (c7_cleanup_outside_and_missing_is_noop _ _ _).2.2.1 (by decide) (by decide)⟩

/-- C8: for every input filename, `get_output_path` yields a path whose
parent is the managed output root and whose filename is the input's stem
followed by `.mp4`; the original extension is discarded (only the stem is
kept). -/
theorem c8_output_path_is_stem_mp4 (m : StorageManager) (input_filename : String) :
    (m.get_output_path input_filename).dropLast = m.output_dir ∧
    (m.get_output_path input_filename).getLast? =
      some (pyStem input_filename ++ ".mp4") := by
  unfold StorageManager.get_output_path
  constructor
  · exact dropLast_concat_dir ..
  · simp

/-- C10: whenever an attachment passed the pre-download declared-size
check (it was kept by `get_audio_attachments`), the post-download
re-validation `download_size_check` still raises an error exactly when the
file actually written to disk is missing or larger than the configured
limit. -/
theorem c10_post_download_size_revalidation (m : StorageManager) (atts : List Attachment)
    (a : Attachment) (ha : a ∈ get_audio_attachments m.settings atts)
    (fs : Fs) (output_path : FsPath) :
    a.size ≤ m.settings.max_file_size ∧
    ((download_size_check m fs output_path).isOk = true ↔
      ∃ sz, fs.sizeOf? output_path = some sz ∧ sz ≤ m.settings.max_file_size) := by
  constructor
  · simp only [get_audio_attachments, List.mem_filter, Bool.and_eq_true,
      decide_eq_true_eq] at ha
    exact ha.2.2
  · unfold download_size_check StorageManager.validate_file_size StorageManager.get_file_size
    cases h : fs.sizeOf? output_path with
    | none => simp [h, Except.isOk, Except.toBool]
    | some sz =>
      by_cases hle : sz ≤ m.settings.max_file_size <;> simp [h, hle, Except.isOk, Except.toBool]

/-- Witness for C10: a declared-size-valid attachment whose downloaded file
is over the limit makes the post-download check fail, while an in-limit
file passes. -/
theorem c10_witness :
    (let s : Settings := ⟨["work"], false, 96, 100, 300, "bg.jpg"⟩
     let m : StorageManager := ⟨s⟩
     let a : Attachment := ⟨"voice.ogg", "audio/ogg", 80⟩
     let p : FsPath := ["work", "inbox", "voice.ogg"]
     a.size ≤ s.max_file_size ∧
       ((download_size_check m [(p, 101)] p).isOk = true ↔
         ∃ sz, Fs.sizeOf? [(p, 101)] p = some sz ∧ sz ≤ s.max_file_size)) :=
  c10_post_download_size_revalidation ⟨⟨["work"], false, 96, 100, 300, "bg.jpg"⟩⟩
    [⟨"voice.ogg", "audio/ogg", 80⟩] ⟨"voice.ogg", "audio/ogg", 80⟩ (by decide)
    [(["work", "inbox", "voice.ogg"], 101)] ["work", "inbox", "voice.ogg"]

/-- C4: the output validation of `convert_audio_to_video` accepts exactly
the runs whose encoder process exited with code 0 and whose output file
exists with a size greater than 0; in every other case — including exit
code 0 with a missing or zero-byte output file — it raises an
`FFmpegError`. -/
theorem c4_success_iff_exit_zero_and_nonempty_output (returncode : Int)
    (stderrText : String) (outSize : Option Nat) :
    ((convertOutputCheck returncode stderrText outSize).isOk = true ↔
      (returncode = 0 ∧ ∃ sz, outSize = some sz ∧ 0 < sz)) ∧
    (∀ (r : FFmpegRunner) (finishAt : Option Nat),
      (convert_audio_to_video r finishAt returncode stderrText outSize).result.isOk = true →
        returncode = 0 ∧ ∃ sz, outSize = some sz ∧ 0 < sz) := by
  have hcheck : (convertOutputCheck returncode stderrText outSize).isOk = true ↔
      (returncode = 0 ∧ ∃ sz, outSize = some sz ∧ 0 < sz) := by
    unfold convertOutputCheck
    by_cases h : returncode = 0
    · cases outSize with
      | none => simp [h, Except.isOk, Except.toBool]
      | some sz => cases sz <;> simp [h, Except.isOk, Except.toBool]
    · simp [h, Except.isOk, Except.toBool]
  refine ⟨hcheck, fun r finishAt h => ?_⟩
  unfold convert_audio_to_video at h
  cases hm : monitorLoop (r.timeout * 10) finishAt 0 with
  | ok f =>
    rw [hm] at h
    exact hcheck.1 h
  | error te =>
    rw [hm] at h
    simp [Except.isOk, Except.toBool] at h

/-- Witness for C4 on a concrete success and the zero-byte failure. -/
theorem c4_witness :
    (((convertOutputCheck 0 "" (some 4)).isOk = true ↔
       ((0 : Int) = 0 ∧ ∃ sz, (some 4 : Option Nat) = some sz ∧ 0 < sz)) ∧
     (∀ (r : FFmpegRunner) (finishAt : Option Nat),
       (convert_audio_to_video r finishAt 0 "" (some 4)).result.isOk = true →
         (0 : Int) = 0 ∧ ∃ sz, (some 4 : Option Nat) = some sz ∧ 0 < sz)) ∧
    (convertOutputCheck 0 "" (some 0)).isOk = false :=
  ⟨c4_success_iff_exit_zero_and_nonempty_output 0 "" (some 4), by decide⟩

/-- C1: for every copy-eligible input filename (extension lower-cases to an
AAC-compatible container) the built command uses the copy audio codec and
contains no `-b:a` token, and for every other filename it uses the `aac`
codec and contains `-b:a` followed by the configured bitrate value; the
`-b:a` token is present iff the input is not copy-eligible. The two side
conditions say that the configured background image and the derived output
path are not themselves named `-b:a`. -/
theorem c1_bitrate_flag_iff_reencode (r : FFmpegRunner) (input_audio output_video : String)
    (hbg : r.background_image ≠ "-b:a") (ho : output_video ≠ "-b:a") :
    ("-b:a" ∈ build_command r input_audio output_video ↔
      can_copy_audio input_audio = false) ∧
    (can_copy_audio input_audio = true →
      (∃ s t, build_command r input_audio output_video = s ++ ["-c:a", "copy"] ++ t) ∧
      "-b:a" ∉ build_command r input_audio output_video) ∧
    (can_copy_audio input_audio = false →
      (∃ s t, build_command r input_audio output_video = s ++ ["-c:a", "aac"] ++ t) ∧
      (∃ s t, build_command r input_audio output_video =
        s ++ ["-b:a", toString r.audio_bitrate ++ "k"] ++ t)) := by
  have hbg' : ¬("-b:a" = r.background_image) := fun e => hbg e.symm
  have ho' : ¬("-b:a" = output_video) := fun e => ho e.symm
  cases h : can_copy_audio input_audio with
  | true =>
    have hin : ¬("-b:a" = input_audio) := by
      intro e
      rw [← e] at h
      exact absurd h (by decide)
    have hnotmem : "-b:a" ∉ build_command r input_audio output_video := by
      simp only [build_command, h, if_true, Bool.true_eq_false]
      simp [hbg', ho', hin]
    refine ⟨?_, fun _ => ⟨?_, hnotmem⟩, fun hc => by simp at hc⟩
    · simp [hnotmem]
    · refine ⟨["ffmpeg", "-y", "-loop", "1", "-i", r.background_image, "-i", input_audio,
        "-c:v", "libx264", "-preset", "veryfast", "-profile:v", "baseline", "-tune",
        "stillimage", "-pix_fmt", "yuv420p"],
        ["-ac", "1", "-shortest", "-movflags", "+faststart",
          "-max_muxing_queue_size", "1024", output_video], ?_⟩
      simp [build_command, h]
  | false =>
    have hmem : "-b:a" ∈ build_command r input_audio output_video := by
      simp [build_command, h]
    refine ⟨by simp [hmem], fun hc => by simp at hc, fun _ => ⟨?_, ?_⟩⟩
    · refine ⟨["ffmpeg", "-y", "-loop", "1", "-i", r.background_image, "-i", input_audio,
        "-c:v", "libx264", "-preset", "veryfast", "-profile:v", "baseline", "-tune",
        "stillimage", "-pix_fmt", "yuv420p"],
        ["-b:a", toString r.audio_bitrate ++ "k", "-ac", "1", "-shortest", "-movflags",
          "+faststart", "-max_muxing_queue_size", "1024", output_video], ?_⟩
      simp [build_command, h]
    · refine ⟨["ffmpeg", "-y", "-loop", "1", "-i", r.background_image, "-i", input_audio,
        "-c:v", "libx264", "-preset", "veryfast", "-profile:v", "baseline", "-tune",
        "stillimage", "-pix_fmt", "yuv420p", "-c:a", "aac"],
        ["-ac", "1", "-shortest", "-movflags", "+faststart",
          "-max_muxing_queue_size", "1024", output_video], ?_⟩
      simp [build_command, h]

/-- Witness for C1: with bitrate 96, the command for `voice.m4a` copies the
audio stream and has no `-b:a` token, and the command for `voice.mp3`
re-encodes with `-b:a` followed by `96k` (the design document's scenario). -/
theorem c1_witness :
    (let r : FFmpegRunner := ⟨300, 96, "/work/assets/bg.jpg"⟩
     ("-b:a" ∈ build_command r "voice.m4a" "voice.mp4" ↔
        can_copy_audio "voice.m4a" = false) ∧
     (can_copy_audio "voice.m4a" = true →
        (∃ s t, build_command r "voice.m4a" "voice.mp4" = s ++ ["-c:a", "copy"] ++ t) ∧
        "-b:a" ∉ build_command r "voice.m4a" "voice.mp4")) ∧
    (let r : FFmpegRunner := ⟨300, 96, "/work/assets/bg.jpg"⟩
     can_copy_audio "voice.mp3" = false →
       (∃ s t, build_command r "voice.mp3" "voice.mp4" = s ++ ["-c:a", "aac"] ++ t) ∧
       (∃ s t, build_command r "voice.mp3" "voice.mp4" =
         s ++ ["-b:a", toString (96 : Nat) ++ "k"] ++ t)) :=
  ⟨⟨(c1_bitrate_flag_iff_reencode ⟨300, 96, "/work/assets/bg.jpg"⟩ "voice.m4a" "voice.mp4"
      (by decide) (by decide)).1,
    (c1_bitrate_flag_iff_reencode ⟨300, 96, "/work/assets/bg.jpg"⟩ "voice.m4a" "voice.mp4"
      (by decide) (by decide)).2.1⟩,
    (c1_bitrate_flag_iff_reencode ⟨300, 96, "/work/assets/bg.jpg"⟩ "voice.mp3" "voice.mp4"
      (by decide) (by decide)).2.2⟩

/-- If the child has not exited by time `t`, `finishedBy` is false. -/
theorem finishedBy_false_of_late (finishAt : Option Nat) (t T : Nat)
    (hfin : ∀ f, finishAt = some f → T < f) (ht : t ≤ T) :
    finishedBy finishAt t = false := by
  cases hf : finishAt with
  | none => rfl
  | some f =>
    have := hfin f hf
    simp only [finishedBy, decide_eq_false_iff_not]
    omega

/-- When the child outlives the whole deadline, the monitor loop raises the
timeout error at exactly the deadline, whatever the (ten-divisible,
in-deadline) elapsed time it starts from. -/
theorem monitorLoop_deadline (T : Nat) (finishAt : Option Nat) (hT : T % 10 = 0)
    (hfin : ∀ f, finishAt = some f → T < f) :
    ∀ e, e % 10 = 0 → e ≤ T →
      monitorLoop T finishAt e = .error ⟨T, monitorTimeoutMsg T⟩ := by
  suffices h : ∀ k e, T - e ≤ k → e % 10 = 0 → e ≤ T →
      monitorLoop T finishAt e = .error ⟨T, monitorTimeoutMsg T⟩ by
    exact fun e he hle => h T e (by omega) he hle
  intro k
  induction k with
  | zero =>
    intro e hk he hle
    have heT : e = T := by omega
    subst heT
    rw [monitorLoop]
    have h1 : finishedBy finishAt e = false :=
      finishedBy_false_of_late finishAt e e hfin le_rfl
    have hw : min 300 (e - e) = 0 := by omega
    simp [h1, hw]
  | succ k ih =>
    intro e hk he hle
    rw [monitorLoop]
    have h1 : finishedBy finishAt e = false :=
      finishedBy_false_of_late finishAt e T hfin hle
    have hwle : e + min 300 (T - e) ≤ T := by omega
    have h2 : finishedBy finishAt (e + min 300 (T - e)) = false :=
      finishedBy_false_of_late finishAt _ T hfin hwle
    by_cases h3 : T ≤ e + min 300 (T - e)
    · have heq : e + min 300 (T - e) = T := by omega
      rw [heq] at h2
      simp [h1, h2, h3, heq]
    · simp only [h1, Bool.false_eq_true, if_false, h2, h3]
      exact ih (e + min 300 (T - e) + 10) (by omega) (by omega) (by omega)

/-- C3: for every conversion whose child process outlives the configured
wall-clock deadline, `convert_audio_to_video` never returns success: it
kills and reaps the child (its `returncode` is set afterwards, so it is no
longer running), raises the timeout `FFmpegError`, and the chained timeout
cause carries the elapsed duration at which the deadline was found
exceeded. -/
theorem c3_timeout_kills_child_and_fails (r : FFmpegRunner) (finishAt : Option Nat)
    (exitCode : Int) (stderrText : String) (outSize : Option Nat)
    (hrun : ∀ f, finishAt = some f → r.timeout * 10 < f) :
    (convert_audio_to_video r finishAt exitCode stderrText outSize).result =
      .error ⟨convertTimeoutMsg r.timeout, none, none⟩ ∧
    (convert_audio_to_video r finishAt exitCode stderrText outSize).result.isOk = false ∧
    (convert_audio_to_video r finishAt exitCode stderrText outSize).procAfter.isSome = true ∧
    (convert_audio_to_video r finishAt exitCode stderrText outSize).causeMsg =
      some (monitorTimeoutMsg (r.timeout * 10)) := by
  have hmon := monitorLoop_deadline (r.timeout * 10) finishAt (by omega) hrun 0 rfl (by omega)
  unfold convert_audio_to_video
  rw [hmon]
  have hrc : procReturncodeAt finishAt exitCode (r.timeout * 10) = none := by
    cases hf : finishAt with
    | none => rfl
    | some f =>
      have := hrun f hf
      simp only [procReturncodeAt, if_neg (by omega : ¬ f ≤ r.timeout * 10)]
  simp [hrc, killAndWait, Except.isOk, Except.toBool]

/-- Witness for C3: a one-second timeout with a child that never exits on
its own is killed and reported as a timeout failure. -/
theorem c3_witness :
    ((∀ f, (none : Option Nat) = some f → (1 : Nat) * 10 < f) ∧
     ((convert_audio_to_video ⟨1, 96, "bg.jpg"⟩ none 0 "" none).result =
        .error ⟨convertTimeoutMsg 1, none, none⟩ ∧
      (convert_audio_to_video ⟨1, 96, "bg.jpg"⟩ none 0 "" none).result.isOk = false ∧
      (convert_audio_to_video ⟨1, 96, "bg.jpg"⟩ none 0 "" none).procAfter.isSome = true ∧
      (convert_audio_to_video ⟨1, 96, "bg.jpg"⟩ none 0 "" none).causeMsg =
        some (monitorTimeoutMsg ((1 : Nat) * 10)))) := by
  constructor
  · intro f h
    cases h
  · exact c3_timeout_kills_child_and_fails ⟨1, 96, "bg.jpg"⟩ none 0 "" none
      (fun f h => by cases h)

set_option maxRecDepth 10000

/-- C5: the daily-note header is a deterministic byte-for-byte function of
the date alone — the fixed front-matter block, the breadcrumb with quarter
`(month - 1) / 3 + 1`, the ISO week-navigation line and the seven
Monday-start day links — and for 2025-10-11 it is exactly the displayed
string, which contains `[[2025]]`, `[[2025-Q4|Q4]]`, week number 41, the
Monday link `2025-10-06` and the Sunday link `2025-10-12`. -/
theorem c5_daily_template_deterministic (d : Date) :
    generate_daily_template d =
      frontMatterBlock ++ breadcrumbLine d ++ "\n" ++ weekNavLine d ++ "\n" ++
        weekDaysLine d ++ "\n\n" ∧
    frontMatterBlock = "---\ntags:\n  - 日記\n---\n\n" ∧
    breadcrumbLine d =
      "[[" ++ toString d.year ++ "]] / [[" ++ toString d.year ++ "-Q" ++
        toString ((d.month - 1) / 3 + 1) ++ "|Q" ++ toString ((d.month - 1) / 3 + 1) ++
        "]] / [[" ++ fmtYm d ++ "|" ++ toString d.month ++ "月]]" ∧
    weekDaysLine d = String.intercalate " - "
      ((List.range 7).map
        (fun i => dayLink (addDays (addDays d (-(isoweekday d - 1 : Nat))) i))) ∧
    generate_daily_template ⟨2025, 10, 11⟩ =
      "---\ntags:\n  - 日記\n---\n\n[[2025]] / [[2025-Q4|Q4]] / [[2025-10|10月]]\n❮ [[2025-W40|Week 40]] | Week 41 | [[2025-W42|Week 42]] ❯\n[[2025-10-06|06]] - [[2025-10-07|07]] - [[2025-10-08|08]] - [[2025-10-09|09]] - [[2025-10-10|10]] - [[2025-10-11|11]] - [[2025-10-12|12]]\n\n" ∧
    strContains (generate_daily_template ⟨2025, 10, 11⟩) "[[2025]]" = true ∧
    strContains (generate_daily_template ⟨2025, 10, 11⟩) "[[2025-Q4|Q4]]" = true ∧
    strContains (generate_daily_template ⟨2025, 10, 11⟩) "Week 41" = true ∧
    strContains (generate_daily_template ⟨2025, 10, 11⟩) "[[2025-10-06|06]]" = true ∧
    strContains (generate_daily_template ⟨2025, 10, 11⟩) "[[2025-10-12|12]]" = true :=
  ⟨rfl, rfl, rfl, rfl, by decide, by decide, by decide, by decide, by decide, by decide⟩

/-- Concatenation, in call order, of the entries a sequence of saves
appends. -/
def entriesJoin : List (TimeOfDay × String × String) → String
  | [] => ""
  | c :: rest => transcriptEntry c.1 c.2.1 c.2.2 ++ entriesJoin rest

/-- Saving onto existing content only ever appends the entries, in call
order. -/
theorem runSaves_some (d : Date) (calls : List (TimeOfDay × String × String)) (s : String) :
    runSaves d calls (some s) = some (s ++ entriesJoin calls) := by
  induction calls generalizing s with
  | nil => simp [runSaves, entriesJoin]
  | cons c rest ih =>
    obtain ⟨t, fn, tr⟩ := c
    simp [runSaves, save_to_markdown, entriesJoin, ih, String.append_assoc]

/-- C6: starting from existing content, a sequence of saves yields exactly
that content followed by one level-2 entry per call in call order (earlier
content is never rewritten, truncated or reordered); starting from a
nonexistent file, the first call — and only the first call — writes the
template header, so the note is the header followed by the entries; the
design document's two-call scenario produces exactly one header and the
two headings in call order. -/
theorem c6_header_once_and_append_only (d : Date)
    (calls : List (TimeOfDay × String × String)) (s : String) :
    runSaves d calls (some s) = some (s ++ entriesJoin calls) ∧
    runSaves d calls none =
      (match calls with
       | [] => none
       | c :: rest =>
         some (generate_daily_template d ++ transcriptEntry c.1 c.2.1 c.2.2 ++
           entriesJoin rest)) ∧
    runSaves ⟨2025, 10, 11⟩
        [(⟨9, 0, 0⟩, "a.ogg", "first entry"), (⟨10, 30, 0⟩, "b.ogg", "second entry")]
        none =
      some (generate_daily_template ⟨2025, 10, 11⟩ ++
        "\n## 09:00:00 - a.ogg\n\nfirst entry\n" ++
        "\n## 10:30:00 - b.ogg\n\nsecond entry\n") := by
  refine ⟨runSaves_some .., ?_, by decide⟩
  cases calls with
  | nil => rfl
  | cons c rest =>
    obtain ⟨t, fn, tr⟩ := c
    simp [runSaves, save_to_markdown, runSaves_some, String.append_assoc]

/-- C9: whenever the transcription stage fails — whether with a transport
error or an invalid-response error — `process_transcription` aborts with
that same failure and the daily note's content is unchanged: the append is
only attempted after a successful transcription. -/
theorem c9_no_append_on_failed_transcription (resp : WhisperResp) (d : Date)
    (t : TimeOfDay) (fn : String) (content : Option String) (e : TranscriptionError)
    (h : transcribe_audio resp = .error e) :
    process_transcription resp d t fn content = (.error e, content) := by
  unfold process_transcription
  rw [h]

/-- Witness for C9: a response without a `text` field aborts the workflow
and leaves the note content untouched. -/
theorem c9_witness :
    transcribe_audio .missingText =
      .error (.valueError "Invalid Whisper API response") ∧
    process_transcription .missingText ⟨2025, 10, 11⟩ ⟨9, 0, 0⟩ "a.ogg" (some "existing") =
      (.error (.valueError "Invalid Whisper API response"), some "existing") :=
  ⟨rfl, c9_no_append_on_failed_transcription .missingText ⟨2025, 10, 11⟩ ⟨9, 0, 0⟩
    "a.ogg" (some "existing") (.valueError "Invalid Whisper API response") rfl⟩

/-- A concrete configuration for closed runs of the coordinator. -/
def sampleManager : StorageManager :=
  ⟨⟨["work"], false, 96, 26214400, 300, "/work/assets/bg.jpg"⟩⟩

/-- Counterexample to C2: an attempt that fails with a download network
error while a partial inbox copy is staged leaves that inbox copy in place
(no cleanup happens on this failure path); moreover on a conversion
failure, where cleanup does happen, the failure is reported outward before
the inbox copy is removed, not after. -/
theorem c2_counterexample :
    (process_video_mode sampleManager [] "a.ogg" (.clientError true) (.ok 1)).1.existsFile
      (sampleManager.get_inbox_path "a.ogg") = true ∧
    Ev.errorSent "Failed to download a.ogg: Network error" ∈
      (process_video_mode sampleManager [] "a.ogg" (.clientError true) (.ok 1)).2 ∧
    Ev.inboxCleanupCalled ∉
      (process_video_mode sampleManager [] "a.ogg" (.clientError true) (.ok 1)).2 ∧
    (process_video_mode sampleManager [] "b.ogg" (.ok 1) .ffmpegError).2 =
      [Ev.replySent "Processing audio file: b.ogg",
       Ev.errorSent "Failed to convert b.ogg: Video processing error",
       Ev.inboxCleanupCalled] := by
  decide

/-- C2 as amended: on every failure path other than an `aiohttp`
client-error — conversion failure, post-download size-check failure,
invalid-response transcription failure, or any other unexpected error —
the staged inbox copy is removed before the attempt finishes, though only
after the failure has been reported outward; on client-error failures
(download transport errors in both modes, and transcription transport
errors) no inbox cleanup is performed at all. -/
theorem c2_amended_inbox_cleanup (m : StorageManager) (fs : Fs) (fn : String)
    (sz : Nat) (cv : CvOutcome) (tr : TrOutcome) :
    ((process_video_mode m fs fn (.ok sz) .ffmpegError).1.existsFile
        (m.get_inbox_path fn) = false ∧
      (process_video_mode m fs fn (.ok sz) .ffmpegError).2 =
        [Ev.replySent ("Processing audio file: " ++ fn),
         Ev.errorSent ("Failed to convert " ++ fn ++ ": Video processing error"),
         Ev.inboxCleanupCalled]) ∧
    ((process_video_mode m fs fn (.ok sz) .unexpectedError).1.existsFile
        (m.get_inbox_path fn) = false ∧
      (process_video_mode m fs fn (.ok sz) .unexpectedError).2 =
        [Ev.replySent ("Processing audio file: " ++ fn),
         Ev.errorSent ("Unexpected error processing " ++ fn),
         Ev.inboxCleanupCalled]) ∧
    ((process_video_mode m fs fn (.sizeTooLarge sz) cv).1.existsFile
        (m.get_inbox_path fn) = false ∧
      (process_video_mode m fs fn (.sizeTooLarge sz) cv).2 =
        [Ev.replySent ("Processing audio file: " ++ fn),
         Ev.errorSent ("Unexpected error processing " ++ fn),
         Ev.inboxCleanupCalled]) ∧
    ((process_transcription_mode m fs fn (.ok sz) .invalidResponse).1.existsFile
        (m.get_inbox_path fn) = false ∧
      (process_transcription_mode m fs fn (.ok sz) .invalidResponse).2 =
        [Ev.replySent ("Transcribing audio: " ++ fn),
         Ev.errorSent ("Unexpected error transcribing " ++ fn),
         Ev.inboxCleanupCalled]) ∧
    ((process_transcription_mode m fs fn (.sizeTooLarge sz) tr).1.existsFile
        (m.get_inbox_path fn) = false) ∧
    (∀ pw, Ev.inboxCleanupCalled ∉ (process_video_mode m fs fn (.clientError pw) cv).2) ∧
    (∀ pw, Ev.inboxCleanupCalled ∉
      (process_transcription_mode m fs fn (.clientError pw) tr).2) ∧
    Ev.inboxCleanupCalled ∉
      (process_transcription_mode m fs fn (.ok sz) .clientError).2 := by
  refine ⟨⟨?_, rfl⟩, ⟨?_, rfl⟩, ⟨?_, rfl⟩, ⟨?_, rfl⟩, ?_, ?_, ?_, ?_⟩
  · exact cleanup_inbox_removes m fs fn sz
  · exact cleanup_inbox_removes m fs fn sz
  · exact cleanup_inbox_removes m fs fn sz
  · exact cleanup_inbox_removes m fs fn sz
  · exact cleanup_inbox_removes m fs fn sz
  · intro pw
    simp [process_video_mode]
  · intro pw
    simp [process_transcription_mode]
  · simp [process_transcription_mode]

end VoiceDiary
